import Mathlib

/-!
# Verification of the PageSpeed Insights MCP server

A shallow embedding of the core of the `pagespeed-insights-mcp` repository:
the outbound analysis client (cache, retry, cache keys), the response
normalizer (`ResponseParser`), and the tool handlers of the MCP server
(`index.ts`, version 1.0.6).  JavaScript numbers are modelled as rationals,
JavaScript objects reachable through `any`-typed accesses as a dynamic value
type `JSVal`, and the statically typed interfaces of `types.ts` as Lean
structures whose optional fields are `Option`s.  Network effects are
modelled by explicit oracles (functions giving the outcome of each upstream
attempt) and explicit state passing for the caches.
-/

namespace PSI

/-- A dynamic JavaScript value, used for the `any`-typed parts of the
upstream payload (audit `details.items` entries, DOM nodes, the `metrics`
audit items).  `undefined` is JavaScript `undefined`, `jnull` is `null`. -/
inductive JSVal where
  | undefined
  | jnull
  | bool (b : Bool)
  | num (q : ℚ)
  | str (s : String)
  | arr (items : List JSVal)
  | obj (fields : List (String × JSVal))

/-- Property access `v[k]` for the keys read by the parser: yields the
field of an object, `undefined` otherwise.  The source only performs such
accesses behind `?.` guards or on values produced by the upstream JSON
parser, so the `undefined`-propagating total model matches the executed
paths. -/
def JSVal.get : JSVal → String → JSVal
  | .obj fields, k =>
    match fields.lookup k with
    | some v => v
    | none => .undefined
  | _, _ => .undefined

/-- JavaScript truthiness: `undefined`, `null`, `false`, `0` and `""` are
falsy; every other value (including `[]` and `{}`) is truthy. -/
def JSVal.truthy : JSVal → Bool
  | .undefined => false
  | .jnull => false
  | .bool b => b
  | .num q => decide (q ≠ 0)
  | .str s => decide (s ≠ "")
  | .arr _ => true
  | .obj _ => true

/-- The JavaScript `a || b` operator. -/
def jsOr (a b : JSVal) : JSVal := if a.truthy then a else b

/-- Strict equality with the literal `false` (for `item.finished !== false`). -/
def JSVal.isFalseLit : JSVal → Bool
  | .bool false => true
  | _ => false

/-- `v || d` read at number type (`item.total || 0` and similar): the
numeric value when truthy, the default otherwise. -/
def JSVal.orNum (v : JSVal) (d : ℚ) : ℚ :=
  if v.truthy then
    match v with
    | .num q => q
    | _ => 0
  else d

/-- `v || d` read at string type (`item.url || ''` and similar). -/
def JSVal.orStr (v : JSVal) (d : String) : String :=
  if v.truthy then
    match v with
    | .str s => s
    | _ => ""
  else d

/-- `o || d` for an optional number already extracted from a typed field
(`details.width || 360`): `0` and absent both fall back to the default. -/
def qOr (o : Option ℚ) (d : ℚ) : ℚ :=
  match o with
  | some q => if q = 0 then d else q
  | none => d

/-! ## Typed model of the upstream response (`types.ts`)

Each interface field that the parser reads is present; optionality in the
TypeScript declaration (or tolerated absence in the payload) becomes
`Option`.  A JavaScript `Record<string, T>` becomes an association list
(keys unique in a parsed JSON object; `List.lookup` takes the first
binding). -/

/-- One entry of `categories[*].auditRefs`. -/
structure AuditRef where
  id : String
  weight : ℚ
  group : Option String

/-- One entry of `lighthouseResult.categories`.  `score` is `none` when the
field is absent or JSON `null` (the two are indistinguishable to every
consumer in the source: both fail the `!== null` and truthiness tests). -/
structure Category where
  id : Option String
  title : Option String
  score : Option ℚ
  auditRefs : Option (List AuditRef)

/-- `ScreenshotData` of `types.ts`. -/
structure ScreenshotData where
  data : String
  width : ℚ
  height : ℚ

/-- The fields of `AuditDetails` that the parser reads.  `width`/`height`
are reached through an `as any` cast in `extractVisualData`. -/
structure AuditDetails where
  dtype : Option String
  items : Option (List JSVal)
  overallSavingsMs : Option ℚ
  data : Option String
  width : Option ℚ
  height : Option ℚ
  screenshot : Option ScreenshotData
  nodes : Option (List (String × JSVal))

/-- The fields of `LighthouseAudit` that the source reads. -/
structure LighthouseAudit where
  title : Option String
  description : Option String
  score : Option ℚ
  displayValue : Option String
  numericValue : Option ℚ
  details : Option AuditDetails

/-- The fields of `lighthouseResult` that the source reads. -/
structure LighthouseResult where
  requestedUrl : Option String
  audits : Option (List (String × LighthouseAudit))
  categories : Option (List (String × Category))

/-- The fields of `PageSpeedInsightsResponse` that the source reads. -/
structure PSIResponse where
  lighthouseResult : Option LighthouseResult
  analysisUTCTimestamp : Option String

/-- `response.lighthouseResult?.audits || {}`. -/
def psiAudits (r : PSIResponse) : List (String × LighthouseAudit) :=
  (r.lighthouseResult.bind (·.audits)).getD []

/-- `response.lighthouseResult?.categories || {}`. -/
def psiCategories (r : PSIResponse) : List (String × Category) :=
  (r.lighthouseResult.bind (·.categories)).getD []

/-- `audits[k]?.details`. -/
def auditDetails (audits : List (String × LighthouseAudit)) (k : String) :
    Option AuditDetails :=
  (audits.lookup k).bind (·.details)

/-- `audits[k]?.details?.items`. -/
def auditItems (audits : List (String × LighthouseAudit)) (k : String) :
    Option (List JSVal) :=
  (auditDetails audits k).bind (·.items)

/-- `audits[k]?.numericValue`. -/
def auditNumericValue (audits : List (String × LighthouseAudit)) (k : String) :
    Option ℚ :=
  (audits.lookup k).bind (·.numericValue)

/-! ## The response normalizer (`response-parser.ts`, class `ResponseParser`)

Each `extract*` function of the source is translated as a Lean function of
the whole response; the first line of each source function,
`const audits = response.lighthouseResult?.audits || {}`, is `psiAudits`.
Every definition below is a total pure Lean function: termination and
absence of mutation of the input are inherent in the embedding, matching
the source, whose accesses on these paths are all `?.`-guarded with
`||`-defaults. -/

/-- A normalized DOM node (`ResponseParser.normalizeNode`). -/
structure ElementNode where
  lhId : JSVal
  path : JSVal
  selector : String
  boundingRect : JSVal
  snippet : String
  nodeLabel : JSVal
  explanation : JSVal

/-- One filmstrip frame of the visual view. -/
structure FilmstripFrame where
  timing : ℚ
  timestamp : ℚ
  data : String

/-- The full-page screenshot slice of the visual view. -/
structure FullPageScreenshot where
  screenshot : ScreenshotData
  nodes : List (String × JSVal)

/-- The visual view returned by `extractVisualData`. -/
structure VisualData where
  finalScreenshot : Option ScreenshotData
  filmstrip : List FilmstripFrame
  fullPageScreenshot : Option FullPageScreenshot

/-- A layout-shift element with its shift score. -/
structure ClsElement where
  node : ElementNode
  score : ℚ

/-- The element view returned by `extractElementData`. -/
structure ElementData where
  lcpElement : Option ElementNode
  clsElements : List ClsElement
  lazyLoadedLcp : Option ElementNode

/-- One normalized network request. -/
structure NetworkRequestV where
  url : String
  protocol : JSVal
  startTime : ℚ
  endTime : ℚ
  finished : Bool
  transferSize : ℚ
  resourceSize : ℚ
  statusCode : ℚ
  mimeType : String
  resourceType : String
  priority : JSVal
  experimentalFromMainFrame : JSVal

/-- One row of the resource summary. -/
structure ResourceSummaryV where
  resourceType : String
  count : ℚ
  size : ℚ

/-- The network view returned by `extractNetworkData`. -/
structure NetworkData where
  requests : List NetworkRequestV
  resourceSummary : List ResourceSummaryV
  totalByteWeight : ℚ
  requestCount : ℕ
  rtt : Option ℚ
  serverLatency : Option ℚ

/-- One bootup-time row. -/
structure JsExecItem where
  url : String
  total : ℚ
  scripting : ℚ
  scriptParseCompile : ℚ

/-- One main-thread-work row. -/
structure MainThreadItem where
  group : String
  groupLabel : String
  duration : ℚ

/-- One unused-resource row. -/
structure UnusedResourceV where
  url : String
  totalBytes : ℚ
  wastedBytes : ℚ
  wastedPercent : ℚ

/-- One duplicated-JavaScript row. -/
structure DuplicatedJsV where
  source : String
  totalBytes : ℚ
  wastedBytes : ℚ

/-- One legacy-JavaScript row. -/
structure LegacyJsV where
  url : String
  wastedBytes : ℚ
  signals : List String

/-- The JavaScript view returned by `extractJavaScriptData`. -/
structure JavaScriptData where
  bootupTime : List JsExecItem
  mainThreadWork : List MainThreadItem
  unusedJavaScript : List UnusedResourceV
  duplicatedJavaScript : List DuplicatedJsV
  legacyJavaScript : List LegacyJsV

/-- One image-optimization row. -/
structure ImageOptV where
  url : String
  totalBytes : ℚ
  wastedBytes : ℚ
  wastedPercent : ℚ
  node : Option ElementNode
  isCrossOrigin : JSVal
  wastedWebpBytes : JSVal

/-- The image view returned by `extractImageOptimizationData`. -/
structure ImageOptimizationData where
  responsiveImages : List ImageOptV
  offscreenImages : List ImageOptV
  unoptimizedImages : List ImageOptV
  modernFormats : List ImageOptV

/-- One render-blocking resource row. -/
structure RenderBlockingV where
  url : String
  totalBytes : ℚ
  wastedMs : ℚ

/-- The render-blocking view returned by `extractRenderBlockingData`. -/
structure RenderBlockingData where
  resources : List RenderBlockingV
  totalWastedMs : ℚ
  criticalChains : Option AuditDetails

/-- One third-party entity row. -/
structure ThirdPartyV where
  entity : String
  transferSize : ℚ
  blockingTime : ℚ
  mainThreadTime : ℚ
  subItems : JSVal

/-- One third-party facade row. -/
structure FacadeV where
  product : String
  transferSize : ℚ
  blockingTime : ℚ

/-- The third-party view returned by `extractThirdPartyData`. -/
structure ThirdPartyData where
  summary : List ThirdPartyV
  totalBlockingTime : ℚ
  totalTransferSize : ℚ
  facades : List FacadeV

/-- One key-audit row of a category summary. -/
structure CategoryAuditEntry where
  id : String
  title : String
  score : Option ℚ
  description : Option String

/-- One category of the category view. -/
structure CategorySummary where
  score : Option ℚ
  keyAudits : List CategoryAuditEntry

/-- The category view returned by `extractOtherCategories`. -/
structure CategoryData where
  accessibility : CategorySummary
  seo : CategorySummary
  bestPractices : CategorySummary
  pwa : CategorySummary

/-- The metrics view returned by `extractDetailedMetrics`; each field is
`metrics.<name>` possibly `||`-chained with an audit `numericValue`, kept
dynamic exactly as the source leaves them. -/
structure DetailedMetrics where
  firstContentfulPaint : JSVal
  largestContentfulPaint : JSVal
  cumulativeLayoutShift : JSVal
  totalBlockingTime : JSVal
  maxPotentialFID : JSVal
  speedIndex : JSVal
  timeToInteractive : JSVal
  firstMeaningfulPaint : JSVal
  observedFirstContentfulPaint : JSVal
  observedLargestContentfulPaint : JSVal
  observedSpeedIndex : JSVal
  observedDomContentLoaded : JSVal
  observedLoad : JSVal
  observedNavigationStart : JSVal
  observedTimeOrigin : JSVal
  observedTraceEnd : JSVal

namespace ResponseParser

/-- `normalizeNode`: reshapes a dynamic node value, defaulting `selector`
and `snippet` to the empty string. -/
def normalizeNode (node : JSVal) : ElementNode where
  lhId := node.get "lhId"
  path := node.get "path"
  selector := (node.get "selector").orStr ""
  boundingRect := node.get "boundingRect"
  snippet := (node.get "snippet").orStr ""
  nodeLabel := node.get "nodeLabel"
  explanation := node.get "explanation"

/-- `extractVisualData`: final screenshot (guarded by truthiness of
`details.data`, width/height defaulting to 360/640), filmstrip frames, and
the full-page screenshot with its node map. -/
def extractVisualData (response : PSIResponse) : VisualData :=
  let audits := psiAudits response
  { finalScreenshot :=
      match auditDetails audits "final-screenshot" with
      | some d =>
        match d.data with
        | some s => if s ≠ "" then some ⟨s, qOr d.width 360, qOr d.height 640⟩ else none
        | none => none
      | none => none
    filmstrip :=
      match auditItems audits "screenshot-thumbnails" with
      | some items => items.map (fun item =>
          ⟨(item.get "timing").orNum 0, (item.get "timestamp").orNum 0,
           (item.get "data").orStr ""⟩)
      | none => []
    fullPageScreenshot :=
      match auditDetails audits "full-page-screenshot" with
      | some d =>
        match d.screenshot with
        | some ss => some ⟨⟨ss.data, ss.width, ss.height⟩, d.nodes.getD []⟩
        | none => none
      | none => none }

/-- `items?.[0]?.node` for an optional items list. -/
def firstItemNode (items : Option (List JSVal)) : JSVal :=
  match items with
  | some xs => (xs.getD 0 .undefined).get "node"
  | none => .undefined

/-- `extractElementData`: the LCP element, layout-shift elements, and the
lazy-loaded LCP element. -/
def extractElementData (response : PSIResponse) : ElementData :=
  let audits := psiAudits response
  { lcpElement :=
      let n := firstItemNode (auditItems audits "largest-contentful-paint-element")
      if n.truthy then some (normalizeNode n) else none
    clsElements :=
      match auditItems audits "layout-shift-elements" with
      | some items =>
        ((items.filter (fun item => (item.get "node").truthy)).map (fun item =>
          ⟨normalizeNode (item.get "node"), (item.get "score").orNum 0⟩))
      | none => []
    lazyLoadedLcp :=
      let n := firstItemNode (auditItems audits "lcp-lazy-loaded")
      if n.truthy then some (normalizeNode n) else none }

/-- `extractNetworkData`: network requests, resource summary, byte weight,
round-trip time and server latency. -/
def extractNetworkData (response : PSIResponse) : NetworkData :=
  let audits := psiAudits response
  let requests : List NetworkRequestV :=
    match auditItems audits "network-requests" with
    | some items => items.map (fun item =>
        { url := (item.get "url").orStr ""
          protocol := item.get "protocol"
          startTime := (item.get "startTime").orNum 0
          endTime := (item.get "endTime").orNum 0
          finished := !(item.get "finished").isFalseLit
          transferSize := (item.get "transferSize").orNum 0
          resourceSize := (item.get "resourceSize").orNum 0
          statusCode := (item.get "statusCode").orNum 0
          mimeType := (item.get "mimeType").orStr ""
          resourceType := (item.get "resourceType").orStr ""
          priority := item.get "priority"
          experimentalFromMainFrame := item.get "experimentalFromMainFrame" })
    | none => []
  { requests := requests
    resourceSummary :=
      match auditItems audits "resource-summary" with
      | some items => items.map (fun item =>
          ⟨(item.get "resourceType").orStr "", (item.get "requestCount").orNum 0,
           (item.get "transferSize").orNum 0⟩)
      | none => []
    totalByteWeight :=
      match auditNumericValue audits "total-byte-weight" with
      | some q => if q = 0 then 0 else q
      | none => 0
    requestCount :=
      match auditItems audits "network-requests" with
      | some _ => requests.length
      | none => 0
    rtt := auditNumericValue audits "network-rtt"
    serverLatency := auditNumericValue audits "network-server-latency" }

/-- `extractJavaScriptData`: bootup time, main-thread work, unused,
duplicated and legacy JavaScript. -/
def extractJavaScriptData (response : PSIResponse) : JavaScriptData :=
  let audits := psiAudits response
  { bootupTime :=
      match auditItems audits "bootup-time" with
      | some items => items.map (fun item =>
          ⟨(item.get "url").orStr "", (item.get "total").orNum 0,
           (item.get "scripting").orNum 0, (item.get "scriptParseCompile").orNum 0⟩)
      | none => []
    mainThreadWork :=
      match auditItems audits "mainthread-work-breakdown" with
      | some items => items.map (fun item =>
          ⟨(item.get "group").orStr "", (item.get "groupLabel").orStr "",
           (item.get "duration").orNum 0⟩)
      | none => []
    unusedJavaScript :=
      match auditItems audits "unused-javascript" with
      | some items => items.map (fun item =>
          ⟨(item.get "url").orStr "", (item.get "totalBytes").orNum 0,
           (item.get "wastedBytes").orNum 0, (item.get "wastedPercent").orNum 0⟩)
      | none => []
    duplicatedJavaScript :=
      match auditItems audits "duplicated-javascript" with
      | some items => items.map (fun item =>
          ⟨(jsOr (item.get "source") (item.get "url")).orStr "",
           (item.get "totalBytes").orNum 0, (item.get "wastedBytes").orNum 0⟩)
      | none => []
    legacyJavaScript :=
      match auditItems audits "legacy-javascript" with
      | some items => items.map (fun item =>
          ⟨(item.get "url").orStr "", (item.get "wastedBytes").orNum 0,
           match (item.get "subItems").get "items" with
           | .arr subs => subs.map (fun s => (s.get "signal").orStr "")
           | _ => []⟩)
      | none => [] }

/-- The row shape shared by the four image-optimization extractions
(`node`/`isCrossOrigin`/`wastedWebpBytes` are only set where the source
literal sets them). -/
def imageItem (withNode : Bool) (item : JSVal) : ImageOptV :=
  { url := (item.get "url").orStr ""
    totalBytes := (item.get "totalBytes").orNum 0
    wastedBytes := (item.get "wastedBytes").orNum 0
    wastedPercent := (item.get "wastedPercent").orNum 0
    node := if withNode ∧ (item.get "node").truthy
            then some (normalizeNode (item.get "node")) else none
    isCrossOrigin := item.get "isCrossOrigin"
    wastedWebpBytes := item.get "wastedWebpBytes" }

/-- `extractImageOptimizationData`: responsive, offscreen, unoptimized and
modern-format image rows. -/
def extractImageOptimizationData (response : PSIResponse) : ImageOptimizationData :=
  let audits := psiAudits response
  let rows (k : String) (withNode : Bool) : List ImageOptV :=
    match auditItems audits k with
    | some items => items.map (imageItem withNode)
    | none => []
  { responsiveImages := rows "uses-responsive-images" true
    offscreenImages := rows "offscreen-images" true
    unoptimizedImages := rows "uses-optimized-images" false
    modernFormats := rows "modern-image-formats" false }

/-- `extractRenderBlockingData`: render-blocking resources, total savings
and the raw critical-request-chains details. -/
def extractRenderBlockingData (response : PSIResponse) : RenderBlockingData :=
  let audits := psiAudits response
  { resources :=
      match auditItems audits "render-blocking-resources" with
      | some items => items.map (fun item =>
          ⟨(item.get "url").orStr "", (item.get "totalBytes").orNum 0,
           (item.get "wastedMs").orNum 0⟩)
      | none => []
    totalWastedMs :=
      match auditItems audits "render-blocking-resources" with
      | some _ =>
        ((auditDetails audits "render-blocking-resources").bind
          (·.overallSavingsMs)).getD 0
      | none => 0
    criticalChains := auditDetails audits "critical-request-chains" }

/-- `extractThirdPartyData`: entity summary with totals computed by
`reduce`, and facades. -/
def extractThirdPartyData (response : PSIResponse) : ThirdPartyData :=
  let audits := psiAudits response
  let summary : List ThirdPartyV :=
    match auditItems audits "third-party-summary" with
    | some items => items.map (fun item =>
        { entity := (item.get "entity").orStr ""
          transferSize := (item.get "transferSize").orNum 0
          blockingTime := (item.get "blockingTime").orNum 0
          mainThreadTime := (item.get "mainThreadTime").orNum 0
          subItems := item.get "subItems" })
    | none => []
  { summary := summary
    totalBlockingTime :=
      match auditItems audits "third-party-summary" with
      | some _ => summary.foldl (fun sum item => sum + item.blockingTime) 0
      | none => 0
    totalTransferSize :=
      match auditItems audits "third-party-summary" with
      | some _ => summary.foldl (fun sum item => sum + item.transferSize) 0
      | none => 0
    facades :=
      match auditItems audits "third-party-facades" with
      | some items => items.map (fun item =>
          ⟨(item.get "product").orStr "", (item.get "transferSize").orNum 0,
           (item.get "blockingTime").orNum 0⟩)
      | none => [] }

/-- `categories[k]?.score || null`: a category score of exactly `0` is
mapped to `null` by the truthiness test. -/
def categoryScore (categories : List (String × Category)) (k : String) : Option ℚ :=
  match (categories.lookup k).bind (·.score) with
  | some s => if s = 0 then none else some s
  | none => none

/-- The filter of `extractOtherCategories`:
`audit && audit.score !== null && audit.score < 1`. -/
def isFailingRef (audits : List (String × LighthouseAudit)) (ref : AuditRef) : Bool :=
  match audits.lookup ref.id with
  | some audit =>
    match audit.score with
    | some s => decide (s < 1)
    | none => false
  | none => false

/-- The map of `extractOtherCategories`: defaults `title` to the ref id via
`audit.title || ref.id`. -/
def keyAuditEntry (audits : List (String × LighthouseAudit)) (ref : AuditRef) :
    CategoryAuditEntry :=
  match audits.lookup ref.id with
  | some audit =>
    { id := ref.id
      title := match audit.title with
               | some t => if t = "" then ref.id else t
               | none => ref.id
      score := audit.score
      description := audit.description }
  | none => { id := ref.id, title := ref.id, score := none, description := none }

/-- The `forEach` body of `extractOtherCategories` for one category key:
`auditRefs.filter(...).map(...).slice(0, 5)` when the category and its
`auditRefs` exist, the initial `[]` otherwise. -/
def failingAudits (categories : List (String × Category))
    (audits : List (String × LighthouseAudit)) (categoryKey : String) :
    List CategoryAuditEntry :=
  match categories.lookup categoryKey with
  | some cat =>
    match cat.auditRefs with
    | some refs =>
      (((refs.filter (isFailingRef audits)).map (keyAuditEntry audits)).take 5)
    | none => []
  | none => []

/-- `extractOtherCategories`: the four non-performance category scores and
their key failing audits (the `bestPractices` record field reads the
`best-practices` category). -/
def extractOtherCategories (response : PSIResponse) : CategoryData :=
  let categories := psiCategories response
  let audits := psiAudits response
  { accessibility :=
      ⟨categoryScore categories "accessibility", failingAudits categories audits "accessibility"⟩
    seo :=
      ⟨categoryScore categories "seo", failingAudits categories audits "seo"⟩
    bestPractices :=
      ⟨categoryScore categories "best-practices", failingAudits categories audits "best-practices"⟩
    pwa :=
      ⟨categoryScore categories "pwa", failingAudits categories audits "pwa"⟩ }

/-- An optional number viewed as a dynamic value (for
`audits[k]?.numericValue` used as a `||` fallback). -/
def optNumVal (o : Option ℚ) : JSVal :=
  match o with
  | some q => .num q
  | none => .undefined

/-- `extractDetailedMetrics`: the `metrics` audit item merged with
individual audit `numericValue` fallbacks. -/
def extractDetailedMetrics (response : PSIResponse) : DetailedMetrics :=
  let audits := psiAudits response
  let metrics : JSVal :=
    match auditItems audits "metrics" with
    | some items => jsOr (items.getD 0 .undefined) (.obj [])
    | none => .obj []
  { firstContentfulPaint :=
      jsOr (metrics.get "firstContentfulPaint")
        (optNumVal (auditNumericValue audits "first-contentful-paint"))
    largestContentfulPaint :=
      jsOr (metrics.get "largestContentfulPaint")
        (optNumVal (auditNumericValue audits "largest-contentful-paint"))
    cumulativeLayoutShift :=
      jsOr (metrics.get "cumulativeLayoutShift")
        (optNumVal (auditNumericValue audits "cumulative-layout-shift"))
    totalBlockingTime :=
      jsOr (metrics.get "totalBlockingTime")
        (optNumVal (auditNumericValue audits "total-blocking-time"))
    maxPotentialFID :=
      jsOr (metrics.get "maxPotentialFID")
        (optNumVal (auditNumericValue audits "max-potential-fid"))
    speedIndex :=
      jsOr (metrics.get "speedIndex")
        (optNumVal (auditNumericValue audits "speed-index"))
    timeToInteractive :=
      jsOr (metrics.get "interactive")
        (optNumVal (auditNumericValue audits "interactive"))
    firstMeaningfulPaint := metrics.get "firstMeaningfulPaint"
    observedFirstContentfulPaint := metrics.get "observedFirstContentfulPaint"
    observedLargestContentfulPaint := metrics.get "observedLargestContentfulPaint"
    observedSpeedIndex := metrics.get "observedSpeedIndex"
    observedDomContentLoaded := metrics.get "observedDomContentLoaded"
    observedLoad := metrics.get "observedLoad"
    observedNavigationStart := metrics.get "observedNavigationStart"
    observedTimeOrigin := metrics.get "observedTimeOrigin"
    observedTraceEnd := metrics.get "observedTraceEnd" }

end ResponseParser

/-! ## The analysis client (`pagespeed-client.ts`, class `PageSpeedClient`)

The client's private `Map` cache is explicit state (`ClientCache`); time is
an explicit `now : ℕ` in milliseconds; the network is an oracle giving the
payload an upstream call would produce.  `networkCalls` counts the upstream
requests one invocation performs.  The `p-limit` concurrency limiter is not
re-modelled: in this sequential embedding a limiter task runs to completion
before the next starts, and a cache hit returns (releasing its slot) right
after the lookup. -/

/-- `c <= d` on the UTF-16 code units, the order used by the default
JavaScript `Array.prototype.sort` comparator on the ASCII keys at hand. -/
def charListLe : List Char → List Char → Bool
  | [], _ => true
  | _ :: _, [] => false
  | c :: cs, d :: ds =>
    if c.val < d.val then true
    else if d.val < c.val then false
    else charListLe cs ds

/-- String order for `Object.keys(params).sort()`. -/
def strLe (a b : String) : Bool := charListLe a.data b.data

/-- Insertion into a sorted list of keys. -/
def sortedInsert (s : String) : List String → List String
  | [] => [s]
  | t :: ts => if strLe s t then s :: t :: ts else t :: sortedInsert s ts

/-- `Object.keys(params).sort()`. -/
def sortStrings (l : List String) : List String := l.foldr sortedInsert []

/-- `createCacheKey`: sorts the parameter *names*, renders them as
`key=value` joined by `|`, and prefixes `psi_v5_`.  The parameter values
are used verbatim. -/
def createCacheKey (params : List (String × String)) : String :=
  let sortedParams :=
    String.intercalate "|"
      ((sortStrings (params.map Prod.fst)).map (fun key =>
        key ++ "=" ++ ((params.lookup key).getD "undefined")))
  "psi_v5_" ++ sortedParams

/-- The input of `analyzePageSpeed` (`AnalyzePageSpeedInput`). -/
structure AnalyzeInput where
  url : String
  strategy : String
  category : Option (List String)
  locale : String

/-- `input.category?.join(",") || "performance"`: the categories parameter
of the cache key keeps the caller's list order; an absent list — or an
empty join — falls back to `"performance"`. -/
def categoriesParam (input : AnalyzeInput) : String :=
  match input.category with
  | some cats =>
    let joined := String.intercalate "," cats
    if joined = "" then "performance" else joined
  | none => "performance"

/-- The cache key `analyzePageSpeed` computes for a request. -/
def analyzeCacheKey (input : AnalyzeInput) : String :=
  createCacheKey
    [("url", input.url), ("strategy", input.strategy),
     ("categories", categoriesParam input), ("locale", input.locale)]

/-- The input of `getCruxData` (`CruxSummaryInput`). -/
structure CruxInput where
  url : String
  formFactor : Option String

/-- `input.formFactor || "PHONE"`. -/
def formFactorParam (input : CruxInput) : String :=
  match input.formFactor with
  | some f => if f = "" then "PHONE" else f
  | none => "PHONE"

/-- The cache key `getCruxData` computes for a request. -/
def cruxCacheKey (input : CruxInput) : String :=
  createCacheKey [("url", input.url), ("formFactor", formFactorParam input)]

/-- One entry of the client's private `Map` cache: payload plus insertion
time. -/
structure CacheEntry (α : Type) where
  data : α
  timestamp : ℕ

/-- The client's private cache (`this.cache`), keyed by cache key. -/
abbrev ClientCache (α : Type) := List (String × CacheEntry α)

/-- `setCache`: `Map.set` — binds the key to the new entry, replacing any
previous binding. -/
def setCache (c : ClientCache α) (key : String) (data : α) (now : ℕ) :
    ClientCache α :=
  (key, ⟨data, now⟩) :: c.filter (fun p => p.1 != key)

/-- `getCached`: `none` on a missing key; a key older than the TTL is
deleted and treated as missing; otherwise the stored payload.  Returns the
possibly-shrunk cache alongside. -/
def getCached (cacheTTL : ℕ) (now : ℕ) (c : ClientCache α) (key : String) :
    Option α × ClientCache α :=
  match c.lookup key with
  | none => (none, c)
  | some cached =>
    if now - cached.timestamp > cacheTTL then
      (none, c.filter (fun p => p.1 != key))
    else
      (some cached.data, c)

/-- The outcome of one invocation: the returned payload, the number of
upstream network requests it performed, and the cache afterwards. -/
structure CallResult (α : Type) where
  data : α
  networkCalls : ℕ
  state : ClientCache α

/-- The cache-first call shape shared by `analyzePageSpeed` and
`getCruxData`: try the cache, otherwise fetch once and store the result
under the key with the current time. -/
def cachedCall (cacheTTL : ℕ) (key : String) (now : ℕ) (fetched : α)
    (c : ClientCache α) : CallResult α :=
  match getCached cacheTTL now c key with
  | (some cached, c1) => ⟨cached, 0, c1⟩
  | (none, c1) => ⟨fetched, 1, setCache c1 key fetched now⟩

/-- `analyzePageSpeed` (lab-analysis path): cache-first under the analyze
cache key; `fetched` is the payload the upstream `makeRequest` would
deliver. -/
def analyzePageSpeed (cacheTTL : ℕ) (input : AnalyzeInput) (now : ℕ)
    (fetched : α) (c : ClientCache α) : CallResult α :=
  cachedCall cacheTTL (analyzeCacheKey input) now fetched c

/-- `getCruxData` (field-data path): cache-first under the CrUX cache key;
the single un-retried fetch is the oracle `fetched`. -/
def getCruxData (cacheTTL : ℕ) (input : CruxInput) (now : ℕ) (fetched : α)
    (c : ClientCache α) : CallResult α :=
  cachedCall cacheTTL (cruxCacheKey input) now fetched c

/-! ### The retry loop of `makeRequest` (`pRetry` with `retries`,
`factor: 2`, `minTimeout: 1000`, `maxTimeout: 10000`) -/

/-- A JavaScript `Error`, as far as the retry logic inspects it: a `name`
and a `message`. -/
structure JsError where
  name : String
  message : String
deriving DecidableEq

/-- What one network attempt does: succeed with a payload, come back with a
non-ok HTTP response, or fail in transport (timeout abort, connection
error), carrying the environment-determined error name and message. -/
inductive AttemptOutcome (α : Type) where
  | success (data : α)
  | httpError (status : ℕ) (statusText : String) (body : String)
  | transportError (name : String) (message : String)

/-- The result of one attempt body: the payload, or the thrown error.  A
non-ok response throws `PSI API error: <status> <statusText> - <body>`,
renamed `ClientError` exactly when the status is in 400–499. -/
def attemptResult : AttemptOutcome α → Except JsError α
  | .success data => .ok data
  | .httpError status statusText body =>
    .error { name := if 400 ≤ status ∧ status < 500 then "ClientError" else "Error"
             message := s!"PSI API error: {status} {statusText} - {body}" }
  | .transportError name message => .error ⟨name, message⟩

/-- The backoff `p-retry` sleeps after failed attempt `attempt`:
`min(minTimeout * factor^(attempt-1), maxTimeout)`. -/
def retryDelay (attempt : ℕ) : ℕ := min (1000 * 2 ^ (attempt - 1)) 10000

/-- A finished retried request: its result, how many attempts ran, and the
backoff delays slept between attempts. -/
structure RequestRun (α : Type) where
  result : Except JsError α
  attempts : ℕ
  delays : List ℕ

/-- The `pRetry` loop: run attempt `attempt` with `remaining` retries left;
on failure `onFailedAttempt` rethrows a `ClientError` immediately (no
retry), otherwise sleep the backoff and go again until retries are
exhausted, surfacing the last error. -/
def runAttempts (outcomes : ℕ → AttemptOutcome α) (attempt remaining : ℕ) :
    RequestRun α :=
  match attemptResult (outcomes attempt) with
  | .ok data => ⟨.ok data, 1, []⟩
  | .error err =>
    if err.name = "ClientError" then ⟨.error err, 1, []⟩
    else
      match remaining with
      | 0 => ⟨.error err, 1, []⟩
      | r + 1 =>
        ⟨(runAttempts outcomes (attempt + 1) r).result,
         (runAttempts outcomes (attempt + 1) r).attempts + 1,
         retryDelay attempt :: (runAttempts outcomes (attempt + 1) r).delays⟩

/-- `makeRequest`: attempt 1 with `retryAttempts` retries in budget
(`p-retry` counts `retries` in addition to the first attempt). -/
def makeRequest (retryAttempts : ℕ) (outcomes : ℕ → AttemptOutcome α) :
    RequestRun α :=
  runAttempts outcomes 1 retryAttempts

/-! ## The singleton `SimpleCache` (`cache.ts`) and the whole-process state

`cache.ts` exports a module-level `SimpleCache` singleton (`cache`) and the
unused sorted-key helpers `createPSICacheKey`/`createCruxCacheKey`.  The
`PageSpeedClient` never touches this singleton: its own `this.cache` is a
separate private `Map`.  The process therefore carries two caches. -/

/-- One `SimpleCache` entry: payload, insertion time, absolute expiry. -/
structure SvcEntry (α : Type) where
  data : α
  timestamp : ℕ
  expiresAt : ℕ

/-- The `SimpleCache` store. -/
abbrev ServiceCache (α : Type) := List (String × SvcEntry α)

/-- `createPSICacheKey` of `cache.ts` (exported but never imported
anywhere): note it *does* sort the category list. -/
def createPSICacheKey (url strategy : String) (categories : List String)
    (locale : String) : String :=
  "psi:" ++ url ++ ":" ++ strategy ++ ":"
    ++ String.intercalate "," (sortStrings categories) ++ ":" ++ locale

/-- The two caches alive in one server process: the client's private `Map`
and the `cache.ts` singleton used by the `clear_cache` tool. -/
structure SystemState (α : Type) where
  clientCache : ClientCache α
  serviceCache : ServiceCache α

/-- One content block of an MCP tool response. -/
structure ContentBlock where
  type : String
  text : String
deriving DecidableEq

/-- An MCP tool response: content blocks plus the error flag (absent in the
source on success, which reads as `false`). -/
structure ToolResponse where
  content : List ContentBlock
  isError : Bool
deriving DecidableEq

/-- `handleClearCache`: clears the `cache.ts` singleton — and only it — and
reports the number of removed entries.  The client's private cache is not
reachable from this handler. -/
def handleClearCache (s : SystemState α) : SystemState α × ToolResponse :=
  let sizeBefore := s.serviceCache.length
  ({ s with serviceCache := [] },
   ⟨[⟨"text", s!"✅ Cache cleared successfully. Removed {sizeBefore} cached entries."⟩],
    false⟩)

/-- An `analyze_page_speed`-style client call seen at the process level:
only the client's private cache is read and written. -/
def systemAnalyze (cacheTTL : ℕ) (input : AnalyzeInput) (now : ℕ)
    (fetched : α) (s : SystemState α) : α × ℕ × SystemState α :=
  let r := analyzePageSpeed cacheTTL input now fetched s.clientCache
  (r.data, r.networkCalls, { s with clientCache := r.state })

/-! ## Server handlers (`index.ts`, version 1.0.6) -/

/-- The `metrics` record of `createPerformanceSummary`: the six audit
`displayValue`s. -/
structure PerfMetrics where
  firstContentfulPaint : Option String
  largestContentfulPaint : Option String
  cumulativeLayoutShift : Option String
  speedIndex : Option String
  totalBlockingTime : Option String
  firstInputDelay : Option String
deriving DecidableEq

/-- One opportunity row of the performance summary. -/
structure OpportunityEntry where
  id : String
  title : Option String
  description : Option String
  score : Option ℚ
  displayValue : Option String
deriving DecidableEq

/-- The payload `createPerformanceSummary` returns. -/
structure PerformanceSummary where
  url : String
  strategy : String
  timestamp : Option String
  score : Option ℤ
  metrics : PerfMetrics
  opportunities : List OpportunityEntry
deriving DecidableEq

/-- `audits?.[k]?.displayValue`. -/
def auditDisplayValue (audits : Option (List (String × LighthouseAudit)))
    (k : String) : Option String :=
  (audits.bind (·.lookup k)).bind (·.displayValue)

/-- `audits?.[ref.id]?.details?.type === "opportunity"`. -/
def isOpportunityRef (audits : Option (List (String × LighthouseAudit)))
    (ref : AuditRef) : Bool :=
  decide ((((audits.bind (·.lookup ref.id)).bind (·.details)).bind (·.dtype))
    = some "opportunity")

/-- The opportunity row built for one audit ref. -/
def opportunityEntry (audits : Option (List (String × LighthouseAudit)))
    (ref : AuditRef) : OpportunityEntry :=
  let audit := audits.bind (·.lookup ref.id)
  { id := ref.id
    title := audit.bind (·.title)
    description := audit.bind (·.description)
    score := audit.bind (·.score)
    displayValue := audit.bind (·.displayValue) }

/-- `createPerformanceSummary`: the performance score is truthiness-tested
before scaling (`performance?.score ? Math.round(performance.score * 100) :
null`), so both an absent score and a score of exactly `0` yield `null`;
metrics are the six `displayValue`s; opportunities are the first five
opportunity-typed audit refs. -/
def createPerformanceSummary (data : PSIResponse) (url strategy : String) :
    PerformanceSummary :=
  let lighthouse := data.lighthouseResult
  let performance := (lighthouse.bind (·.categories)).bind (·.lookup "performance")
  let audits := lighthouse.bind (·.audits)
  { url := url
    strategy := strategy
    timestamp := data.analysisUTCTimestamp
    score :=
      match performance.bind (·.score) with
      | some s => if s = 0 then none else some (round (s * 100))
      | none => none
    metrics :=
      { firstContentfulPaint := auditDisplayValue audits "first-contentful-paint"
        largestContentfulPaint := auditDisplayValue audits "largest-contentful-paint"
        cumulativeLayoutShift := auditDisplayValue audits "cumulative-layout-shift"
        speedIndex := auditDisplayValue audits "speed-index"
        totalBlockingTime := auditDisplayValue audits "total-blocking-time"
        firstInputDelay := auditDisplayValue audits "max-potential-fid" }
    opportunities :=
      match performance.bind (·.auditRefs) with
      | some refs =>
        (((refs.filter (isOpportunityRef audits)).map (opportunityEntry audits)).take 5)
      | none => [] }

/-! ### CrUX field data (`formatCruxSummary`, `handleCruxSummary`) -/

/-- `percentiles` of one CrUX metric. -/
structure CruxPercentiles where
  p75 : ℚ
  p50 : Option ℚ
  p25 : Option ℚ

/-- One CrUX metric (the formatter only reads `percentiles.p75`). -/
structure CruxMetric where
  percentiles : CruxPercentiles

/-- `record.key`. -/
structure CruxKey where
  url : String
  formFactor : String

/-- The inner `record` of a CrUX response. -/
structure CruxRecordData where
  key : CruxKey
  metrics : Option (List (String × CruxMetric))

/-- A CrUX API response (`CruxRecord` of `types.ts`): `record` is absent
when the URL has insufficient real-user traffic. -/
structure CruxRecordM where
  record : Option CruxRecordData

/-- An apostrophe, spelled via its code point. -/
def apos : String := String.mk [Char.ofNat 39]

/-- The exact text `formatCruxSummary` renders when `record` is absent. -/
def noCruxDataText (url : String) : String :=
  "# CrUX Field Data\n\n**URL:** " ++ url
    ++ "\n**Status:** No field data available (insufficient traffic)\n\nThis URL doesn"
    ++ apos ++ "t have enough real-world usage data in Chrome UX Report."

/-- Decimal-or-fraction rendering of a rational (the numeric rendering is
irrelevant to every claim; only the `record`-absent branch is specified
textually). -/
def ratText (q : ℚ) : String :=
  if q.den = 1 then toString q.num else toString q

/-- One Core Web Vitals line of the summary, empty when the metric is
absent (`cumulative_layout_shift` carries no `ms` unit). -/
def cruxMetricLine (record : CruxRecordData) (key title : String) : String :=
  match record.metrics.bind (·.lookup key) with
  | some metric =>
    "- **" ++ title ++ "**: " ++ ratText metric.percentiles.p75
      ++ (if key = "cumulative_layout_shift" then "" else "ms") ++ " (p75)\n"
  | none => ""

/-- `formatCruxSummary`: the insufficient-traffic text when `record` is
absent, otherwise the Core Web Vitals summary. -/
def formatCruxSummary (cruxData : CruxRecordM) (url : String) : String :=
  match cruxData.record with
  | none => noCruxDataText url
  | some record =>
    "# CrUX Field Data Summary\n\n**URL:** " ++ url
      ++ "\n**Form Factor:** " ++ record.key.formFactor ++ "\n\n"
      ++ "## Core Web Vitals (Real User Data)\n"
      ++ cruxMetricLine record "largest_contentful_paint" "Largest Contentful Paint"
      ++ cruxMetricLine record "first_input_delay" "First Input Delay"
      ++ cruxMetricLine record "cumulative_layout_shift" "Cumulative Layout Shift"

/-- `handleCruxSummary` after input validation: a fetched payload is
rendered through `formatCruxSummary` with no error flag; a thrown fetch
error is caught into an error-flagged text response. -/
def handleCruxSummary (url : String) (fetched : Except String CruxRecordM) :
    ToolResponse :=
  match fetched with
  | .ok cruxData => ⟨[⟨"text", formatCruxSummary cruxData url⟩], false⟩
  | .error msg => ⟨[⟨"text", "Error getting CrUX data: " ++ msg⟩], true⟩

/-! ### Batch analysis (`handleBatchAnalyze`, `BatchAnalyzeSchema`) -/

/-- The input of `batch_analyze`. -/
structure BatchInput where
  urls : List String
  strategy : String
  category : Option (List String)
  locale : String

/-- `BatchAnalyzeSchema.parse`: every URL must satisfy the `z.string().url()`
well-formedness check (abstracted as the predicate `validUrl`) and the list
must have between 1 and 10 elements. -/
def batchValidate (validUrl : String → Bool) (input : BatchInput) : Bool :=
  input.urls.all validUrl
    && decide (1 ≤ input.urls.length)
    && decide (input.urls.length ≤ 10)

/-- One per-URL row of the batch report: the summary on success, the caught
error message on failure (never both). -/
structure BatchEntry (α : Type) where
  url : String
  result : Option α
  error : Option String

/-- The `for` loop of `handleBatchAnalyze` from index `i`: each URL is
tried in turn; a failure is recorded and the loop continues with the next
URL.  `outcome i` is what the client call (plus summarization) for the
`i`-th URL produces: a summary, or the message of the caught error. -/
def batchResults (urls : List String) (outcome : ℕ → Except String α)
    (i : ℕ) : List (BatchEntry α) :=
  match urls with
  | [] => []
  | url :: rest =>
    (match outcome i with
     | .ok r => ⟨url, some r, none⟩
     | .error msg => ⟨url, none, some msg⟩) :: batchResults rest outcome (i + 1)

/-- The final batch report: totals plus per-URL rows, and (for the model)
the number of client calls that were issued. -/
structure BatchReport (α : Type) where
  isError : Bool
  total : ℕ
  successful : ℕ
  failed : ℕ
  results : List (BatchEntry α)
  clientCalls : ℕ

/-- `results.filter(r => r.result)`: a present summary object is always
truthy. -/
def countSuccessful (results : List (BatchEntry α)) : ℕ :=
  (results.filter (fun r => r.result.isSome)).length

/-- `results.filter(r => r.error)`: a recorded error counts only when its
message string is truthy, i.e. non-empty. -/
def countFailed (results : List (BatchEntry α)) : ℕ :=
  (results.filter (fun r =>
    match r.error with
    | some msg => msg != ""
    | none => false)).length

/-- `handleBatchAnalyze`: schema validation first (a failure is caught into
an error-flagged report before any client call); then the per-URL loop and
the summary counts. -/
def handleBatchAnalyze (validUrl : String → Bool) (input : BatchInput)
    (outcome : ℕ → Except String α) : BatchReport α :=
  if batchValidate validUrl input then
    let results := batchResults input.urls outcome 0
    { isError := false
      total := input.urls.length
      successful := countSuccessful results
      failed := countFailed results
      results := results
      clientCalls := input.urls.length }
  else
    { isError := true, total := 0, successful := 0, failed := 0
      results := [], clientCalls := 0 }

/-! ### Tool dispatch (`setupTools`, `CallToolRequestSchema` handler) -/

/-- The 16 tool names registered by the 1.0.6 server. -/
def registeredToolNames : List String :=
  ["analyze_page_speed", "get_performance_summary", "crux_summary",
   "compare_pages", "full_report", "batch_analyze", "clear_cache",
   "get_recommendations", "get_visual_analysis", "get_element_analysis",
   "get_network_analysis", "get_javascript_analysis",
   "get_image_optimization_details", "get_render_blocking_details",
   "get_third_party_impact", "get_full_audit"]

/-- The `switch (name)` of the call-tool handler: a registered name is
routed to its handler (each handler catches its own failures and returns a
`ToolResponse`, abstracted as `handle`); the `default` branch *throws*
`Error("Unknown tool: <name>")`, which leaves the dispatch handler as a
rejected promise (`Except.error`) for the SDK to deal with. -/
def callToolDispatch (handle : String → ToolResponse) (name : String) :
    Except JsError ToolResponse :=
  if name = "analyze_page_speed" then .ok (handle name)
  else if name = "get_performance_summary" then .ok (handle name)
  else if name = "crux_summary" then .ok (handle name)
  else if name = "compare_pages" then .ok (handle name)
  else if name = "full_report" then .ok (handle name)
  else if name = "batch_analyze" then .ok (handle name)
  else if name = "clear_cache" then .ok (handle name)
  else if name = "get_recommendations" then .ok (handle name)
  else if name = "get_visual_analysis" then .ok (handle name)
  else if name = "get_element_analysis" then .ok (handle name)
  else if name = "get_network_analysis" then .ok (handle name)
  else if name = "get_javascript_analysis" then .ok (handle name)
  else if name = "get_image_optimization_details" then .ok (handle name)
  else if name = "get_render_blocking_details" then .ok (handle name)
  else if name = "get_third_party_impact" then .ok (handle name)
  else if name = "get_full_audit" then .ok (handle name)
  else .error ⟨"Error", "Unknown tool: " ++ name⟩

/-! ## Spec-side and surgery definitions used by the comparison theorems -/

/-- The `auditRefs` list of a category, empty when the category or the list
is missing. -/
def categoryRefs (categories : List (String × Category)) (key : String) :
    List AuditRef :=
  match categories.lookup key with
  | some cat => cat.auditRefs.getD []
  | none => []

/-- The key-audit selection as the spec words it: among the category's
audit refs, in upstream iteration order (no re-sorting), those whose audit
has a non-null score strictly less than 1, truncated to at most the first
five. -/
def specKeyAudits (categories : List (String × Category))
    (audits : List (String × LighthouseAudit)) (key : String) :
    List CategoryAuditEntry :=
  ((((categoryRefs categories key).filter (fun ref =>
      match (audits.lookup ref.id).bind (·.score) with
      | some s => decide (s < 1)
      | none => false)).map (ResponseParser.keyAuditEntry audits)).take 5)

/-- Replace the score of the `performance` category entry, leaving
everything else of the response untouched (used to compare a zero score
with an absent score). -/
def setCategoryScore (cs : List (String × Category)) (newScore : Option ℚ) :
    List (String × Category) :=
  cs.map (fun p =>
    if p.1 = "performance" then (p.1, { p.2 with score := newScore }) else p)

/-- The response with its `performance` category score replaced. -/
def setPerformanceScore (data : PSIResponse) (newScore : Option ℚ) :
    PSIResponse :=
  { data with
    lighthouseResult := data.lighthouseResult.map (fun l =>
      { l with categories := l.categories.map (fun cs =>
          setCategoryScore cs newScore) }) }

/-! ## Helper lemmas -/

theorem getCached_hit {α : Type} (cacheTTL now : ℕ) (c : ClientCache α)
    (key : String) (e : CacheEntry α) (hlook : c.lookup key = some e)
    (hlive : now - e.timestamp ≤ cacheTTL) :
    getCached cacheTTL now c key = (some e.data, c) := by
  unfold getCached
  rw [hlook]
  simp [Nat.not_lt.mpr hlive]

theorem cachedCall_hit {α : Type} (cacheTTL : ℕ) (key : String) (now : ℕ)
    (fetched : α) (c : ClientCache α) (e : CacheEntry α)
    (hlook : c.lookup key = some e) (hlive : now - e.timestamp ≤ cacheTTL) :
    cachedCall cacheTTL key now fetched c = ⟨e.data, 0, c⟩ := by
  unfold cachedCall
  rw [getCached_hit cacheTTL now c key e hlook hlive]

theorem cachedCall_miss {α : Type} (cacheTTL : ℕ) (key : String) (now : ℕ)
    (fetched : α) (c : ClientCache α)
    (hmiss : (getCached cacheTTL now c key).1 = none) :
    cachedCall cacheTTL key now fetched c =
      ⟨fetched, 1, setCache (getCached cacheTTL now c key).2 key fetched now⟩ := by
  unfold cachedCall
  rcases hg : getCached cacheTTL now c key with ⟨o, c1⟩
  rw [hg] at hmiss
  simp only at hmiss
  subst hmiss
  simp [hg]

theorem lookup_setCache_self {α : Type} (c : ClientCache α) (key : String)
    (d : α) (now : ℕ) :
    (setCache c key d now).lookup key = some ⟨d, now⟩ := by
  unfold setCache
  simp [List.lookup]

/-- A miss followed by a second call on the same key within the TTL: the
first call fetches (one upstream request), the second is served from the
stored entry with no upstream request. -/
theorem cachedCall_second_hit {α : Type} (cacheTTL t0 t1 : ℕ) (key : String)
    (d0 d1 : α) (c0 : ClientCache α)
    (hmiss : (getCached cacheTTL t0 c0 key).1 = none)
    (hwin : t1 - t0 ≤ cacheTTL) :
    (cachedCall cacheTTL key t0 d0 c0).data = d0 ∧
    (cachedCall cacheTTL key t0 d0 c0).networkCalls = 1 ∧
    (cachedCall cacheTTL key t1 d1 (cachedCall cacheTTL key t0 d0 c0).state).data = d0 ∧
    (cachedCall cacheTTL key t1 d1 (cachedCall cacheTTL key t0 d0 c0).state).networkCalls = 0 ∧
    (cachedCall cacheTTL key t1 d1 (cachedCall cacheTTL key t0 d0 c0).state).state
      = (cachedCall cacheTTL key t0 d0 c0).state := by
  have h1 := cachedCall_miss cacheTTL key t0 d0 c0 hmiss
  have hstate : (cachedCall cacheTTL key t0 d0 c0).state
      = setCache (getCached cacheTTL t0 c0 key).2 key d0 t0 := by rw [h1]
  have hlook : (cachedCall cacheTTL key t0 d0 c0).state.lookup key
      = some ⟨d0, t0⟩ := by
    rw [hstate, lookup_setCache_self]
  have h2 := cachedCall_hit cacheTTL key t1 d1
    (cachedCall cacheTTL key t0 d0 c0).state ⟨d0, t0⟩ hlook hwin
  refine ⟨by rw [h1], by rw [h1], by rw [h2], by rw [h2], by rw [h2]⟩

/-! ## The claims -/

/-- **C1.** For every analysis or field-data call whose computed cache key
has a live (non-expired) cache entry, the call returns the cached payload
with zero upstream network requests and an unchanged cache (the limiter
task finishes right after the lookup in this sequential model); and issuing
the same logical request twice within the TTL window performs exactly one
upstream call in total, the second call returning the payload stored by the
first. -/
theorem c1_cache_hit_and_idempotence {α : Type} (cacheTTL : ℕ)
    (input : AnalyzeInput) (cruxInput : CruxInput) :
    (∀ (now : ℕ) (fetched : α) (c : ClientCache α) (e : CacheEntry α),
      c.lookup (analyzeCacheKey input) = some e →
      now - e.timestamp ≤ cacheTTL →
      analyzePageSpeed cacheTTL input now fetched c = ⟨e.data, 0, c⟩)
    ∧ (∀ (now : ℕ) (fetched : α) (c : ClientCache α) (e : CacheEntry α),
      c.lookup (cruxCacheKey cruxInput) = some e →
      now - e.timestamp ≤ cacheTTL →
      getCruxData cacheTTL cruxInput now fetched c = ⟨e.data, 0, c⟩)
    ∧ (∀ (t0 t1 : ℕ) (d0 d1 : α) (c0 : ClientCache α),
      (getCached cacheTTL t0 c0 (analyzeCacheKey input)).1 = none →
      t1 - t0 ≤ cacheTTL →
      (analyzePageSpeed cacheTTL input t0 d0 c0).networkCalls = 1 ∧
      (analyzePageSpeed cacheTTL input t1 d1
        (analyzePageSpeed cacheTTL input t0 d0 c0).state).networkCalls = 0 ∧
      (analyzePageSpeed cacheTTL input t1 d1
        (analyzePageSpeed cacheTTL input t0 d0 c0).state).data
        = (analyzePageSpeed cacheTTL input t0 d0 c0).data)
    ∧ (∀ (t0 t1 : ℕ) (d0 d1 : α) (c0 : ClientCache α),
      (getCached cacheTTL t0 c0 (cruxCacheKey cruxInput)).1 = none →
      t1 - t0 ≤ cacheTTL →
      (getCruxData cacheTTL cruxInput t0 d0 c0).networkCalls = 1 ∧
      (getCruxData cacheTTL cruxInput t1 d1
        (getCruxData cacheTTL cruxInput t0 d0 c0).state).networkCalls = 0 ∧
      (getCruxData cacheTTL cruxInput t1 d1
        (getCruxData cacheTTL cruxInput t0 d0 c0).state).data
        = (getCruxData cacheTTL cruxInput t0 d0 c0).data) := by
  refine ⟨?_, ?_, ?_, ?_⟩
  · intro now fetched c e hlook hlive
    exact cachedCall_hit cacheTTL (analyzeCacheKey input) now fetched c e hlook hlive
  · intro now fetched c e hlook hlive
    exact cachedCall_hit cacheTTL (cruxCacheKey cruxInput) now fetched c e hlook hlive
  · intro t0 t1 d0 d1 c0 hmiss hwin
    obtain ⟨hd0, hn1, hd2, hn2, -⟩ :=
      cachedCall_second_hit cacheTTL t0 t1 (analyzeCacheKey input) d0 d1 c0 hmiss hwin
    exact ⟨hn1, hn2, by simp only [analyzePageSpeed]; rw [hd2, hd0]⟩
  · intro t0 t1 d0 d1 c0 hmiss hwin
    obtain ⟨hd0, hn1, hd2, hn2, -⟩ :=
      cachedCall_second_hit cacheTTL t0 t1 (cruxCacheKey cruxInput) d0 d1 c0 hmiss hwin
    exact ⟨hn1, hn2, by simp only [getCruxData]; rw [hd2, hd0]⟩

/-- When every attempt in the window fails retryably, the loop runs all of
them, surfaces the last error, and sleeps the exponential backoff between
attempts. -/
theorem runAttempts_exhausts {α : Type} (outcomes : ℕ → AttemptOutcome α) :
    ∀ (remaining attempt : ℕ),
    (∀ i, attempt ≤ i → i ≤ attempt + remaining →
      ∃ e, attemptResult (outcomes i) = .error e ∧ e.name ≠ "ClientError") →
    (runAttempts outcomes attempt remaining).attempts = remaining + 1 ∧
    (runAttempts outcomes attempt remaining).result
      = attemptResult (outcomes (attempt + remaining)) ∧
    (runAttempts outcomes attempt remaining).delays
      = (List.range remaining).map (fun i => retryDelay (attempt + i)) := by
  intro remaining
  induction remaining with
  | zero =>
    intro attempt h
    obtain ⟨e, he, hname⟩ := h attempt (le_refl _) (by omega)
    unfold runAttempts
    rw [he]
    simp [if_neg hname, he]
  | succ r ih =>
    intro attempt h
    obtain ⟨e, he, hname⟩ := h attempt (le_refl _) (by omega)
    have hrest := ih (attempt + 1) (fun i hi1 hi2 => h i (by omega) (by omega))
    unfold runAttempts
    rw [he]
    simp only [if_neg hname]
    refine ⟨by simp [hrest.1], ?_, ?_⟩
    · rw [hrest.2.1, show attempt + (r + 1) = attempt + 1 + r from by omega]
    · rw [hrest.2.2, List.range_succ_eq_map, List.map_cons, List.map_map,
        List.cons.injEq]
      refine ⟨by simp, ?_⟩
      apply List.map_congr_left
      intro i _
      simp only [Function.comp_apply]
      congr 1
      omega

/-- Witness for C1 at concrete inputs: a live entry is returned with zero
upstream calls, and a miss-then-hit pair performs exactly one upstream
call. -/
theorem c1_cache_hit_and_idempotence_witness :
    analyzePageSpeed (α := ℕ) 3600000 ⟨"https://example.com", "mobile", none, "en"⟩
        1000 7 [(analyzeCacheKey ⟨"https://example.com", "mobile", none, "en"⟩, ⟨42, 0⟩)]
      = ⟨42, 0, [(analyzeCacheKey ⟨"https://example.com", "mobile", none, "en"⟩, ⟨42, 0⟩)]⟩
    ∧ (analyzePageSpeed (α := ℕ) 3600000 ⟨"https://example.com", "mobile", none, "en"⟩
        0 7 []).networkCalls = 1
    ∧ (analyzePageSpeed (α := ℕ) 3600000 ⟨"https://example.com", "mobile", none, "en"⟩
        2000 9 (analyzePageSpeed 3600000 ⟨"https://example.com", "mobile", none, "en"⟩
          0 7 []).state).networkCalls = 0 := by
  obtain ⟨h1, -, h3, -⟩ :=
    c1_cache_hit_and_idempotence (α := ℕ) 3600000
      ⟨"https://example.com", "mobile", none, "en"⟩ ⟨"https://example.com", none⟩
  obtain ⟨ha, hb, -⟩ := h3 0 2000 7 9 [] (by rfl) (by decide)
  exact ⟨h1 1000 7 _ ⟨42, 0⟩ (by simp [List.lookup]) (by decide), ha, hb⟩

/-- **C2.** On the lab-analysis path: a first-attempt failure with an HTTP
status in 400–499 ends the request after exactly one attempt, surfacing the
`ClientError` immediately with no backoff; when every attempt in the budget
fails retryably, all `retryAttempts + 1` attempts run, the last failure is
surfaced, and the backoff slept between attempts is exactly
`min(1000 * 2^i, 10000)` (multiplier 2, base 1s, cap 10s). -/
theorem c2_client_errors_immediate_others_retried {α : Type}
    (retryAttempts : ℕ) (outcomes : ℕ → AttemptOutcome α) :
    (∀ status statusText body,
      outcomes 1 = .httpError status statusText body →
      400 ≤ status → status < 500 →
      makeRequest retryAttempts outcomes =
        ⟨.error ⟨"ClientError", s!"PSI API error: {status} {statusText} - {body}"⟩,
         1, []⟩)
    ∧ ((∀ i, 1 ≤ i → i ≤ retryAttempts + 1 →
        ∃ e, attemptResult (outcomes i) = .error e ∧ e.name ≠ "ClientError") →
      (makeRequest retryAttempts outcomes).attempts = retryAttempts + 1 ∧
      (makeRequest retryAttempts outcomes).result
        = attemptResult (outcomes (retryAttempts + 1)) ∧
      (makeRequest retryAttempts outcomes).delays
        = (List.range retryAttempts).map (fun i => min (1000 * 2 ^ i) 10000)) := by
  constructor
  · intro status statusText body hout h4 h5
    have hcond : 400 ≤ status ∧ status < 500 := ⟨h4, h5⟩
    unfold makeRequest runAttempts
    rw [hout]
    simp [attemptResult, hcond]
  · intro h
    have hex := runAttempts_exhausts outcomes retryAttempts 1
      (fun i hi1 hi2 => h i hi1 (by omega))
    unfold makeRequest
    refine ⟨hex.1, ?_, ?_⟩
    · rw [hex.2.1, Nat.add_comm 1 retryAttempts]
    · rw [hex.2.2]
      apply List.map_congr_left
      intro i _
      simp [retryDelay]

/-- Witness for C2: a 404 on the first attempt gives one attempt and an
immediate `ClientError`; five-retry budget with a persistent timeout abort
gives six attempts and delays 1s, 2s, 4s, 8s, then capped at 10s. -/
theorem c2_client_errors_immediate_others_retried_witness :
    makeRequest (α := ℕ) 3 (fun _ => .httpError 404 "Not Found" "missing") =
      ⟨.error ⟨"ClientError", "PSI API error: 404 Not Found - missing"⟩, 1, []⟩
    ∧ (makeRequest (α := ℕ) 5
        (fun _ => .transportError "AbortError" "The operation was aborted")).attempts = 6
    ∧ (makeRequest (α := ℕ) 5
        (fun _ => .transportError "AbortError" "The operation was aborted")).delays
        = [1000, 2000, 4000, 8000, 10000] := by
  obtain ⟨h1, -⟩ := c2_client_errors_immediate_others_retried (α := ℕ) 3
    (fun _ => .httpError 404 "Not Found" "missing")
  obtain ⟨-, h2⟩ := c2_client_errors_immediate_others_retried (α := ℕ) 5
    (fun _ => .transportError "AbortError" "The operation was aborted")
  have h2x := h2 (fun i hi1 hi2 =>
    ⟨⟨"AbortError", "The operation was aborted"⟩, rfl, by decide⟩)
  refine ⟨?_, h2x.1, ?_⟩
  · rw [h1 404 "Not Found" "missing" rfl (by decide) (by decide)]
    rfl
  · rw [h2x.2.2]
    rfl

/-- **C3 (counterexample).** `createCacheKey` sorts the parameter *names*,
not the category list (`input.category?.join(",")` keeps caller order; the
sorting `createPSICacheKey` of `cache.ts` is never used), so two requests
that agree on URL, strategy and locale but permute the category list get
different cache keys — and the second request issued right after the first
performs a fresh upstream call instead of a cache hit. -/
theorem c3_counterexample_category_order_changes_key :
    analyzeCacheKey ⟨"https://example.com", "mobile", some ["performance", "seo"], "en"⟩
      ≠ analyzeCacheKey ⟨"https://example.com", "mobile", some ["seo", "performance"], "en"⟩
    ∧ (analyzePageSpeed (α := ℕ) 3600000
        ⟨"https://example.com", "mobile", some ["seo", "performance"], "en"⟩ 1000 9
        (analyzePageSpeed 3600000
          ⟨"https://example.com", "mobile", some ["performance", "seo"], "en"⟩ 0 7
          []).state).networkCalls = 1 := by
  exact ⟨by decide, by rfl⟩

/-- **C3 (amended).** For every pair of analysis requests that agree on
URL, strategy, locale and on the category list *in the same order*, the
client computes the same deterministic cache key, so the second request
issued within the TTL window is served from the cache entry stored by the
first with no new upstream call.  (Permuted category lists are not
normalized and can yield distinct keys — see the counterexample.) -/
theorem c3_amended_equal_category_lists_share_key (i1 i2 : AnalyzeInput)
    (hurl : i1.url = i2.url) (hstrat : i1.strategy = i2.strategy)
    (hcat : i1.category = i2.category) (hloc : i1.locale = i2.locale) :
    analyzeCacheKey i1 = analyzeCacheKey i2
    ∧ ∀ (α : Type) (cacheTTL t0 t1 : ℕ) (d0 d1 : α) (c0 : ClientCache α),
      (getCached cacheTTL t0 c0 (analyzeCacheKey i1)).1 = none →
      t1 - t0 ≤ cacheTTL →
      (analyzePageSpeed cacheTTL i2 t1 d1
        (analyzePageSpeed cacheTTL i1 t0 d0 c0).state).networkCalls = 0 ∧
      (analyzePageSpeed cacheTTL i2 t1 d1
        (analyzePageSpeed cacheTTL i1 t0 d0 c0).state).data
        = (analyzePageSpeed cacheTTL i1 t0 d0 c0).data := by
  have heq : i1 = i2 := by
    cases i1; cases i2; simp_all
  subst heq
  refine ⟨rfl, ?_⟩
  intro α cacheTTL t0 t1 d0 d1 c0 hmiss hwin
  obtain ⟨hd0, hn1, hd2, hn2, -⟩ :=
    cachedCall_second_hit cacheTTL t0 t1 (analyzeCacheKey i1) d0 d1 c0 hmiss hwin
  exact ⟨hn2, by simp only [analyzePageSpeed]; rw [hd2, hd0]⟩

/-- Witness for the amended C3: two syntactically distinct but equal-field
requests share a key, and the second call is a cache hit. -/
theorem c3_amended_equal_category_lists_share_key_witness :
    analyzeCacheKey ⟨"https://example.com", "mobile", some ["performance", "seo"], "en"⟩
      = analyzeCacheKey ⟨"https://example.com", "mobile", some ["performance", "seo"], "en"⟩
    ∧ (analyzePageSpeed (α := ℕ) 3600000
        ⟨"https://example.com", "mobile", some ["performance", "seo"], "en"⟩ 1000 9
        (analyzePageSpeed 3600000
          ⟨"https://example.com", "mobile", some ["performance", "seo"], "en"⟩ 0 7
          []).state).networkCalls = 0 := by
  obtain ⟨hk, hrun⟩ := c3_amended_equal_category_lists_share_key
    ⟨"https://example.com", "mobile", some ["performance", "seo"], "en"⟩
    ⟨"https://example.com", "mobile", some ["performance", "seo"], "en"⟩
    rfl rfl rfl rfl
  exact ⟨hk, (hrun ℕ 3600000 0 1000 7 9 [] (by rfl) (by decide)).1⟩

/-- **C4.** Every `ResponseParser` extraction function is total and pure by
construction in this embedding (each is a Lean function over the typed
response, mirroring the source's `?.`-guarded accesses), and on any
response whose lighthouse audits and categories are missing or empty — in
particular the empty object and any object missing `lighthouseResult` —
each returns exactly its documented default shape: empty lists, zeros,
nulls (`none`), and `undefined` metric slots. -/
theorem c4_extractors_default_on_missing_data (r : PSIResponse)
    (haudits : psiAudits r = []) (hcats : psiCategories r = []) :
    ResponseParser.extractVisualData r = ⟨none, [], none⟩
    ∧ ResponseParser.extractElementData r = ⟨none, [], none⟩
    ∧ ResponseParser.extractNetworkData r = ⟨[], [], 0, 0, none, none⟩
    ∧ ResponseParser.extractJavaScriptData r = ⟨[], [], [], [], []⟩
    ∧ ResponseParser.extractImageOptimizationData r = ⟨[], [], [], []⟩
    ∧ ResponseParser.extractRenderBlockingData r = ⟨[], 0, none⟩
    ∧ ResponseParser.extractThirdPartyData r = ⟨[], 0, 0, []⟩
    ∧ ResponseParser.extractOtherCategories r
        = ⟨⟨none, []⟩, ⟨none, []⟩, ⟨none, []⟩, ⟨none, []⟩⟩
    ∧ ResponseParser.extractDetailedMetrics r
        = ⟨.undefined, .undefined, .undefined, .undefined, .undefined, .undefined, .undefined, .undefined,
           .undefined, .undefined, .undefined, .undefined, .undefined, .undefined, .undefined, .undefined⟩ := by
  refine ⟨?_, ?_, ?_, ?_, ?_, ?_, ?_, ?_, ?_⟩
  · simp [ResponseParser.extractVisualData, auditDetails, auditItems, haudits]
  · simp [ResponseParser.extractElementData, ResponseParser.firstItemNode,
      auditDetails, auditItems, haudits, JSVal.truthy]
  · simp [ResponseParser.extractNetworkData, auditDetails, auditItems,
      auditNumericValue, haudits]
  · simp [ResponseParser.extractJavaScriptData, auditDetails, auditItems, haudits]
  · simp [ResponseParser.extractImageOptimizationData, auditDetails, auditItems,
      haudits]
  · simp [ResponseParser.extractRenderBlockingData, auditDetails, auditItems,
      haudits]
  · simp [ResponseParser.extractThirdPartyData, auditDetails, auditItems, haudits]
  · simp [ResponseParser.extractOtherCategories, ResponseParser.categoryScore,
      ResponseParser.failingAudits, haudits, hcats]
  · simp [ResponseParser.extractDetailedMetrics, ResponseParser.optNumVal,
      auditDetails, auditItems, auditNumericValue, haudits, jsOr, JSVal.truthy,
      JSVal.get]

/-- Witness for C4: the empty response, and a response whose
`lighthouseResult` is present but holds empty audit and category maps, both
produce the default shapes. -/
theorem c4_extractors_default_on_missing_data_witness :
    (psiAudits ⟨none, none⟩ = [] ∧ psiCategories ⟨none, none⟩ = []
      ∧ ResponseParser.extractVisualData ⟨none, none⟩ = ⟨none, [], none⟩
      ∧ ResponseParser.extractOtherCategories ⟨none, none⟩
          = ⟨⟨none, []⟩, ⟨none, []⟩, ⟨none, []⟩, ⟨none, []⟩⟩)
    ∧ (psiAudits ⟨some ⟨none, some [], some []⟩, none⟩ = []
      ∧ ResponseParser.extractNetworkData ⟨some ⟨none, some [], some []⟩, none⟩
          = ⟨[], [], 0, 0, none, none⟩) := by
  obtain ⟨hv, -, -, -, -, -, -, hc, -⟩ :=
    c4_extractors_default_on_missing_data ⟨none, none⟩ (by rfl) (by rfl)
  obtain ⟨-, -, hn, -⟩ :=
    c4_extractors_default_on_missing_data ⟨some ⟨none, some [], some []⟩, none⟩
      (by rfl) (by rfl)
  exact ⟨⟨rfl, rfl, hv, hc⟩, ⟨rfl, hn⟩⟩

/-- The batch loop preserves the input URLs in order, one row per URL. -/
theorem batchResults_urls {α : Type} (outcome : ℕ → Except String α) :
    ∀ (urls : List String) (i : ℕ),
      (batchResults urls outcome i).map (·.url) = urls := by
  intro urls
  induction urls with
  | nil => intro i; rfl
  | cons u rest ih =>
    intro i
    unfold batchResults
    cases h : outcome i <;> simp [h, ih (i + 1)]

/-- When every recorded failure message is non-empty, the two truthiness
filters of the batch summary partition the rows. -/
theorem batchResults_counts {α : Type} (outcome : ℕ → Except String α)
    (hne : ∀ i msg, outcome i = .error msg → msg ≠ "") :
    ∀ (urls : List String) (i : ℕ),
      countSuccessful (batchResults urls outcome i)
        + countFailed (batchResults urls outcome i) = urls.length := by
  intro urls
  induction urls with
  | nil => intro i; rfl
  | cons u rest ih =>
    intro i
    have hrest := ih (i + 1)
    unfold batchResults
    cases h : outcome i with
    | ok r =>
      simp only [countSuccessful, countFailed] at hrest ⊢
      simp [List.filter_cons]
      omega
    | error msg =>
      have hmsg : (msg != "") = true := bne_iff_ne.mpr (hne i msg h)
      simp only [countSuccessful, countFailed] at hrest ⊢
      simp [List.filter_cons, hmsg]
      omega

/-- **C5 (counterexample).** The batch summary counts truthy fields:
`successful` counts rows with a result object, but `failed` counts rows
whose error *message string* is truthy.  A URL failing with an empty error
message (`new Error("")` from the environment) is recorded but counted by
neither filter, so `successful + failed = N` fails: one URL, one empty-message
failure, `0 + 0 ≠ 1`. -/
theorem c5_counterexample_empty_error_message_breaks_counts :
    (handleBatchAnalyze (fun _ => true) ⟨["https://a.example"], "mobile", none, "en"⟩
      (fun _ => Except.error (α := ℕ) "")).total = 1
    ∧ (handleBatchAnalyze (fun _ => true) ⟨["https://a.example"], "mobile", none, "en"⟩
      (fun _ => Except.error (α := ℕ) "")).results.length = 1
    ∧ (handleBatchAnalyze (fun _ => true) ⟨["https://a.example"], "mobile", none, "en"⟩
      (fun _ => Except.error (α := ℕ) "")).successful = 0
    ∧ (handleBatchAnalyze (fun _ => true) ⟨["https://a.example"], "mobile", none, "en"⟩
      (fun _ => Except.error (α := ℕ) "")).failed = 0 := by
  exact ⟨rfl, rfl, rfl, rfl⟩

/-- **C5 (amended).** For every validated batch request with N URLs
(1 ≤ N ≤ 10), all N URLs are attempted even when some fail, and the final
report lists one row per URL in input order; the reported successful count
plus failed count equals N *provided every recorded failure message is
non-empty* (the summary filters count truthy fields, so an empty error
message would escape both counts).  Requests with 0 URLs or more than 10
URLs are rejected at validation with zero client calls. -/
theorem c5_amended_batch_independent_failures (α : Type)
    (validUrl : String → Bool) (input : BatchInput)
    (outcome : ℕ → Except String α) :
    (batchValidate validUrl input = true →
      (handleBatchAnalyze validUrl input outcome).isError = false
      ∧ (handleBatchAnalyze validUrl input outcome).results.map (·.url) = input.urls
      ∧ (handleBatchAnalyze validUrl input outcome).clientCalls = input.urls.length
      ∧ ((∀ i msg, outcome i = .error msg → msg ≠ "") →
        (handleBatchAnalyze validUrl input outcome).successful
          + (handleBatchAnalyze validUrl input outcome).failed
          = (handleBatchAnalyze validUrl input outcome).total))
    ∧ (input.urls.length = 0 ∨ 10 < input.urls.length →
      (handleBatchAnalyze validUrl input outcome).isError = true
      ∧ (handleBatchAnalyze validUrl input outcome).clientCalls = 0) := by
  constructor
  · intro hval
    have hrun : handleBatchAnalyze validUrl input outcome =
        { isError := false
          total := input.urls.length
          successful := countSuccessful (batchResults input.urls outcome 0)
          failed := countFailed (batchResults input.urls outcome 0)
          results := batchResults input.urls outcome 0
          clientCalls := input.urls.length } := by
      unfold handleBatchAnalyze
      rw [if_pos hval]
    rw [hrun]
    exact ⟨rfl, batchResults_urls outcome input.urls 0, rfl,
      fun hne => batchResults_counts outcome hne input.urls 0⟩
  · intro hlen
    have hbv : batchValidate validUrl input = false := by
      unfold batchValidate
      rcases hlen with h0 | h10
      · simp [h0]
      · simp [Nat.not_le.mpr h10]
    simp [handleBatchAnalyze, hbv]

/-- Witness for the amended C5: three URLs with the middle one failing — all
three attempted in order, counts 2 + 1 = 3; the empty batch is rejected with
zero client calls. -/
theorem c5_amended_batch_independent_failures_witness :
    (handleBatchAnalyze (fun _ => true)
      ⟨["https://a.example", "https://b.example", "https://c.example"], "mobile", none, "en"⟩
      (fun i => if i = 1 then Except.error (α := ℕ) "PSI API error: 500" else .ok 90)).isError
        = false
    ∧ (handleBatchAnalyze (fun _ => true)
      ⟨["https://a.example", "https://b.example", "https://c.example"], "mobile", none, "en"⟩
      (fun i => if i = 1 then Except.error (α := ℕ) "PSI API error: 500" else .ok 90)).results.map
        (·.url) = ["https://a.example", "https://b.example", "https://c.example"]
    ∧ (handleBatchAnalyze (fun _ => true)
      ⟨["https://a.example", "https://b.example", "https://c.example"], "mobile", none, "en"⟩
      (fun i => if i = 1 then Except.error (α := ℕ) "PSI API error: 500" else .ok 90)).successful
      + (handleBatchAnalyze (fun _ => true)
      ⟨["https://a.example", "https://b.example", "https://c.example"], "mobile", none, "en"⟩
      (fun i => if i = 1 then Except.error (α := ℕ) "PSI API error: 500" else .ok 90)).failed
      = (handleBatchAnalyze (fun _ => true)
      ⟨["https://a.example", "https://b.example", "https://c.example"], "mobile", none, "en"⟩
      (fun i => if i = 1 then Except.error (α := ℕ) "PSI API error: 500" else .ok 90)).total
    ∧ (handleBatchAnalyze (fun _ => true) ⟨[], "mobile", none, "en"⟩
        (fun _ => Except.ok (α := ℕ) 90)).isError = true := by
  obtain ⟨hvalid, -⟩ := c5_amended_batch_independent_failures ℕ (fun _ => true)
    ⟨["https://a.example", "https://b.example", "https://c.example"], "mobile", none, "en"⟩
    (fun i => if i = 1 then Except.error "PSI API error: 500" else .ok 90)
  obtain ⟨h1, h2, -, h4⟩ := hvalid (by decide)
  obtain ⟨-, hrej⟩ := c5_amended_batch_independent_failures ℕ (fun _ => true)
    ⟨[], "mobile", none, "en"⟩ (fun _ => Except.ok 90)
  refine ⟨h1, h2, h4 ?_, (hrej (Or.inl rfl)).1⟩
  intro i msg hmsg
  by_cases hi : i = 1
  · subst hi
    simp at hmsg
    simp [← hmsg]
  · simp [hi] at hmsg

/-- **C6 (evaluation at the failing input).** The `clear_cache` tool clears
only the `cache.ts` singleton, while the client answers from its own
private `Map`: after an analysis at time 0 and an explicit full clear, the
identical analysis at time 1000 (well inside the TTL) is still served from
the client's cache with *zero* upstream calls — the clear is not observable
through the client, contradicting the tool's own description ("force fresh
API requests").  The last conjunct states the general fact: clearing never
touches the client cache. -/
theorem c6_clear_cache_leaves_client_cache_live :
    (systemAnalyze (α := ℕ) 3600000 ⟨"https://example.com", "mobile", none, "en"⟩
      0 7 ⟨[], []⟩).2.1 = 1
    ∧ (handleClearCache (systemAnalyze (α := ℕ) 3600000
        ⟨"https://example.com", "mobile", none, "en"⟩ 0 7 ⟨[], []⟩).2.2).1.serviceCache = []
    ∧ (systemAnalyze 3600000 ⟨"https://example.com", "mobile", none, "en"⟩ 1000 9
        (handleClearCache (systemAnalyze (α := ℕ) 3600000
          ⟨"https://example.com", "mobile", none, "en"⟩ 0 7 ⟨[], []⟩).2.2).1).2.1 = 0
    ∧ (systemAnalyze 3600000 ⟨"https://example.com", "mobile", none, "en"⟩ 1000 9
        (handleClearCache (systemAnalyze (α := ℕ) 3600000
          ⟨"https://example.com", "mobile", none, "en"⟩ 0 7 ⟨[], []⟩).2.2).1).1 = 7
    ∧ ∀ (α : Type) (s : SystemState α), (handleClearCache s).1.clientCache = s.clientCache := by
  exact ⟨rfl, rfl, rfl, rfl, fun α s => rfl⟩

/-- **C7 (counterexample).** An unknown tool name does not produce an
error-flagged content response: the `default` branch of the dispatch switch
throws, and the rejection leaves the dispatch handler (here: the
`Except.error` of the thrown `Error`), whatever the registered handlers
would return. -/
theorem c7_counterexample_unknown_tool_rejects :
    callToolDispatch (fun _ => ⟨[⟨"text", "ok"⟩], false⟩) "not_a_tool"
      = Except.error ⟨"Error", "Unknown tool: not_a_tool"⟩ := by
  rfl

/-- **C7 (amended).** For every call-tool request whose tool name is not
one of the registered tool names, the dispatch handler *throws*
`Error("Unknown tool: <name>")` — a distinct error category by message —
which propagates out of the dispatch handler as a rejected promise for the
protocol SDK to convert, instead of being caught into an error-flagged
content response the way registered handlers' failures are. -/
theorem c7_amended_unknown_tool_error_propagates
    (handle : String → ToolResponse) (name : String)
    (h : name ∉ registeredToolNames) :
    callToolDispatch handle name = .error ⟨"Error", "Unknown tool: " ++ name⟩ := by
  simp only [registeredToolNames, List.mem_cons, List.not_mem_nil, or_false,
    not_or] at h
  obtain ⟨h1, h2, h3, h4, h5, h6, h7, h8, h9, h10, h11, h12, h13, h14, h15, h16⟩ := h
  simp [callToolDispatch, h1, h2, h3, h4, h5, h6, h7, h8, h9, h10, h11, h12,
    h13, h14, h15, h16]

/-- Witness for the amended C7 at a concrete unknown name. -/
theorem c7_amended_unknown_tool_error_propagates_witness :
    callToolDispatch (fun _ => ⟨[⟨"text", "ok"⟩], false⟩) "unsupported_operation"
      = .error ⟨"Error", "Unknown tool: unsupported_operation"⟩ := by
  exact c7_amended_unknown_tool_error_propagates
    (fun _ => ⟨[⟨"text", "ok"⟩], false⟩) "unsupported_operation" (by decide)

/-- **C8.** A successfully fetched field-data result whose `record` field
is absent yields a non-error response (error flag unset) whose rendered
text is exactly the insufficient-real-user-traffic notice: absence of the
record is a successful, meaningful outcome, not a failure. -/
theorem c8_missing_crux_record_is_success (url : String) (crux : CruxRecordM)
    (h : crux.record = none) :
    handleCruxSummary url (.ok crux) = ⟨[⟨"text", noCruxDataText url⟩], false⟩
    ∧ (handleCruxSummary url (.ok crux)).isError = false := by
  have hresp : handleCruxSummary url (.ok crux)
      = ⟨[⟨"text", noCruxDataText url⟩], false⟩ := by
    simp [handleCruxSummary, formatCruxSummary, h]
  exact ⟨hresp, by rw [hresp]⟩

/-- Witness for C8 at a concrete URL and the record-free payload. -/
theorem c8_missing_crux_record_is_success_witness :
    handleCruxSummary "https://example.com" (.ok ⟨none⟩)
      = ⟨[⟨"text", noCruxDataText "https://example.com"⟩], false⟩ := by
  exact (c8_missing_crux_record_is_success "https://example.com" ⟨none⟩ rfl).1

/-- The source filter and the spec's selection condition agree pointwise. -/
theorem isFailingRef_eq_spec (audits : List (String × LighthouseAudit))
    (ref : AuditRef) :
    ResponseParser.isFailingRef audits ref
      = (match (audits.lookup ref.id).bind (·.score) with
         | some s => decide (s < 1)
         | none => false) := by
  unfold ResponseParser.isFailingRef
  cases audits.lookup ref.id with
  | none => rfl
  | some audit => cases audit.score <;> rfl

/-- The source's per-category `forEach` body equals the spec-side
selection. -/
theorem failingAudits_eq_spec (categories : List (String × Category))
    (audits : List (String × LighthouseAudit)) (key : String) :
    ResponseParser.failingAudits categories audits key
      = specKeyAudits categories audits key := by
  unfold ResponseParser.failingAudits specKeyAudits categoryRefs
  cases categories.lookup key with
  | none => rfl
  | some cat =>
    obtain ⟨cid, ctitle, cscore, crefs⟩ := cat
    cases crefs with
    | none => rfl
    | some refs =>
      simp only [Option.getD_some]
      rw [List.filter_congr (fun x _ => isFailingRef_eq_spec audits x)]

/-- The id a key-audit entry carries is its ref's id. -/
theorem keyAuditEntry_id (audits : List (String × LighthouseAudit))
    (ref : AuditRef) :
    (ResponseParser.keyAuditEntry audits ref).id = ref.id := by
  unfold ResponseParser.keyAuditEntry
  cases audits.lookup ref.id <;> rfl

/-- **C9.** For every response, each of the four non-performance category
summaries lists exactly the audits selected the way the spec words it —
referenced by the category, score non-null and strictly below 1, in
upstream `auditRefs` iteration order, truncated to the first five — and in
general every such key-audit list has at most five entries whose ids form
an order-preserving sublist of the category's `auditRefs` ids (no
re-sorting by severity). -/
theorem c9_category_key_audits_selection (r : PSIResponse) :
    ((ResponseParser.extractOtherCategories r).accessibility.keyAudits
        = specKeyAudits (psiCategories r) (psiAudits r) "accessibility"
      ∧ (ResponseParser.extractOtherCategories r).seo.keyAudits
        = specKeyAudits (psiCategories r) (psiAudits r) "seo"
      ∧ (ResponseParser.extractOtherCategories r).bestPractices.keyAudits
        = specKeyAudits (psiCategories r) (psiAudits r) "best-practices"
      ∧ (ResponseParser.extractOtherCategories r).pwa.keyAudits
        = specKeyAudits (psiCategories r) (psiAudits r) "pwa")
    ∧ (∀ key,
      (ResponseParser.failingAudits (psiCategories r) (psiAudits r) key).length ≤ 5
      ∧ ((ResponseParser.failingAudits (psiCategories r) (psiAudits r) key).map
          (·.id)).Sublist ((categoryRefs (psiCategories r) key).map (·.id))) := by
  constructor
  · exact ⟨failingAudits_eq_spec _ _ _, failingAudits_eq_spec _ _ _,
      failingAudits_eq_spec _ _ _, failingAudits_eq_spec _ _ _⟩
  · intro key
    rw [failingAudits_eq_spec]
    constructor
    · exact List.length_take_le 5 _
    · have hlift : ∀ (l : List AuditRef),
          (l.map (ResponseParser.keyAuditEntry (psiAudits r))).map (·.id)
            = l.map (·.id) := by
        intro l
        rw [List.map_map]
        apply List.map_congr_left
        intro ref _
        exact keyAuditEntry_id (psiAudits r) ref
      unfold specKeyAudits
      rw [List.map_take, hlift]
      exact (List.take_sublist 5 _).trans ((List.filter_sublist _).map _)

/-- Replacing the `performance` score rewrites exactly the `performance`
binding of the category map. -/
theorem lookup_setCategoryScore (newScore : Option ℚ) :
    ∀ (cs : List (String × Category)),
      (setCategoryScore cs newScore).lookup "performance"
        = (cs.lookup "performance").map (fun c => { c with score := newScore }) := by
  intro cs
  induction cs with
  | nil => rfl
  | cons p rest ih =>
    obtain ⟨k, v⟩ := p
    by_cases hk : k = "performance"
    · subst hk
      simp [setCategoryScore, List.lookup]
    · have hk2 : ¬("performance" = k) := fun e => hk e.symm
      have hbeq : ("performance" == k) = false := by
        simp [hk2]
      simp only [setCategoryScore, List.map_cons, if_neg hk] at *
      simp [List.lookup, hbeq, ih]

/-- **C10.** In the performance summary, a lighthouse performance category
score of exactly 0 is reported as `null` — the truthiness test
`performance?.score ? Math.round(performance.score * 100) : null` runs
before scaling — which is the same value produced when the score is absent:
the summary of a zero-score response equals, field for field, the summary
of the same response with the score removed, so a caller cannot
distinguish the two. -/
theorem c10_zero_score_reported_as_null (data : PSIResponse)
    (url strategy : String)
    (h : (((data.lighthouseResult.bind (·.categories)).bind
        (·.lookup "performance")).bind (·.score)) = some 0) :
    (createPerformanceSummary data url strategy).score = none
    ∧ createPerformanceSummary data url strategy
      = createPerformanceSummary (setPerformanceScore data none) url strategy := by
  obtain ⟨lhr, ts⟩ := data
  cases lhr with
  | none => simp at h
  | some l =>
    obtain ⟨ru, au, cats⟩ := l
    cases cats with
    | none => simp at h
    | some cs =>
      simp only [Option.some_bind] at h
      cases hl : cs.lookup "performance" with
      | none => rw [hl] at h; simp at h
      | some perf =>
        rw [hl] at h
        simp only [Option.some_bind] at h
        constructor
        · simp [createPerformanceSummary, hl, h]
        · simp [createPerformanceSummary, setPerformanceScore,
            lookup_setCategoryScore, hl, h]

/-- Witness for C10: a response whose performance score is exactly 0 is
summarized with a `null` score, identically to the score-free response. -/
theorem c10_zero_score_reported_as_null_witness :
    (createPerformanceSummary
      ⟨some ⟨none, none, some [("performance", ⟨none, none, some 0, none⟩)]⟩, none⟩
      "https://example.com" "mobile").score = none
    ∧ createPerformanceSummary
        ⟨some ⟨none, none, some [("performance", ⟨none, none, some 0, none⟩)]⟩, none⟩
        "https://example.com" "mobile"
      = createPerformanceSummary
          (setPerformanceScore
            ⟨some ⟨none, none, some [("performance", ⟨none, none, some 0, none⟩)]⟩, none⟩
            none)
          "https://example.com" "mobile" := by
  exact c10_zero_score_reported_as_null
    ⟨some ⟨none, none, some [("performance", ⟨none, none, some 0, none⟩)]⟩, none⟩
    "https://example.com" "mobile" (by rfl)

end PSI
